import Mathlib

/-!
# Verification of the arbiter-core Environment worker and middleware

This file shallowly embeds the `Environment` worker loop of
`arbiter-core/src/environment/mod.rs` and the receipt/tx-env construction of
`arbiter-core/src/middleware/mod.rs`, and proves properties of them.

Machine integers are modelled as `Nat` with explicit reduction `% 2^w`
where the source arithmetic wraps (`U64`, `U256`).  Addresses (20 bytes),
storage keys and values (32 bytes) are modelled as `Nat`; the casts between
`ethers` and `revm` fixed-byte types performed in the source are injective
round-trips and are therefore modelled as the identity.

The EVM interpreter itself (`revm`'s `transact` / `transact_commit`) is an
external library dependency; it is modelled as an abstract function from the
transaction environment, block environment, and database to either an error
or an execution result paired with the post-commit database (`transact`
discards the latter, `transact_commit` adopts it).
-/

namespace ArbiterCore

/-! ## Data model: accounts and the database (`revm::db::CacheDB` as used) -/

/-- `revm::db::AccountState`. -/
inductive AccountState where
  | None
  | Touched
  | StorageCleared
  | NotExisting
deriving DecidableEq, Repr

/-- keccak256 of the empty byte string, `revm::primitives::KECCAK_EMPTY`,
the `code_hash` of `AccountInfo::default()`. -/
def keccakEmpty : Nat :=
  0xc5d2460186f7233c927e7db2dcc703c0e500b653ca82273b7bfad8045d85a470

/-- `revm::primitives::AccountInfo` (the fields the worker touches). -/
structure AccountInfo where
  balance : Nat
  nonce : Nat
  code_hash : Nat
deriving DecidableEq, Repr

/-- `AccountInfo::default()`. -/
def AccountInfo.default : AccountInfo :=
  { balance := 0, nonce := 0, code_hash := keccakEmpty }

/-- Account storage: a finite map from 256-bit keys to 256-bit values,
modelled as an association list with `HashMap` insert/lookup semantics. -/
abbrev Storage := List (Nat × Nat)

/-- `revm::db::DbAccount`. -/
structure DbAccount where
  info : AccountInfo
  account_state : AccountState
  storage : Storage
deriving DecidableEq, Repr

/-- The fresh account inserted by the `AddAccount` arm. -/
def defaultDbAccount : DbAccount :=
  { info := AccountInfo.default, account_state := AccountState.None, storage := [] }

/-- Finite-map lookup on an association list (`HashMap::get`). -/
def mapLookup {α : Type} : List (Nat × α) → Nat → Option α
  | [], _ => none
  | (k, v) :: rest, key => if k = key then some v else mapLookup rest key

/-- Finite-map insert on an association list (`HashMap::insert`): replaces the
binding in place when the key is present, appends otherwise. -/
def mapInsert {α : Type} : List (Nat × α) → Nat → α → List (Nat × α)
  | [], key, val => [(key, val)]
  | (k, v) :: rest, key, val =>
    if k = key then (k, val) :: rest else (k, v) :: mapInsert rest key val

/-- The world-state database: `CacheDB.accounts`, address → account. -/
abbrev DB := List (Nat × DbAccount)

/-! ## Transaction environment and execution results -/

/-- `revm::primitives::TransactTo` (only `CreateScheme::Create` is used). -/
inductive TransactTo where
  | Call (address : Nat)
  | Create
deriving DecidableEq, Repr

/-- `revm::primitives::TxEnv` as constructed by the middleware. -/
structure TxEnv where
  caller : Nat
  gas_limit : Nat
  gas_price : Nat
  gas_priority_fee : Option Nat
  transact_to : TransactTo
  value : Nat
  data : List Nat
  chain_id : Option Nat
  nonce : Option Nat
  access_list : List (Nat × List Nat)
deriving DecidableEq, Repr

/-- `revm::primitives::Log`: emitting address, topics, data bytes. -/
structure Log where
  address : Nat
  topics : List Nat
  data : List Nat
deriving DecidableEq, Repr

/-- `revm::primitives::Output`. -/
inductive Output where
  | Call (bytes : List Nat)
  | Create (bytes : List Nat) (address : Option Nat)
deriving DecidableEq, Repr

/-- `revm::primitives::ExecutionResult`.  `Halt`'s reason is abstracted to a
numeric code. -/
inductive ExecutionResult where
  | Success (gas_used gas_refunded : Nat) (logs : List Log) (output : Output)
  | Revert (gas_used : Nat) (output : List Nat)
  | Halt (reason : Nat) (gas_used : Nat)
deriving DecidableEq, Repr

/-- `ExecutionResult::gas_used()`. -/
def ExecutionResult.gasUsed : ExecutionResult → Nat
  | .Success g _ _ _ => g
  | .Revert g _ => g
  | .Halt _ g => g

/-- `ExecutionResult::logs()` (empty unless `Success`). -/
def ExecutionResult.execLogs : ExecutionResult → List Log
  | .Success _ _ l _ => l
  | _ => []

/-- Abstract payload of a `revm` `EVMError`. -/
abbrev EvmErr := Nat

/-- Abstract model of the `revm` interpreter: given the transaction
environment, block number, block timestamp, and database, return either an
interpreter error or the execution result together with the post-commit
database.  `Call` (`evm.transact()`) discards the returned database;
`Transaction` (`evm.transact_commit()`) adopts it.  An erroring run performs
no commit, so the database is unchanged in that case. -/
abbrev Interp := TxEnv → Nat → Nat → DB → Except EvmErr (ExecutionResult × DB)

/-! ## Instruction protocol -/

/-- `environment::instruction::Cheatcodes` (the `block` argument of `Load` is
ignored by the worker and omitted). -/
inductive Cheatcodes where
  | Load (account key : Nat)
  | Store (account key value : Nat)
  | Deal (address amount : Nat)
  | Access (address : Nat)
deriving DecidableEq, Repr

/-- `environment::instruction::EnvironmentData`. -/
inductive EnvironmentData where
  | BlockNumber
  | BlockTimestamp
  | GasPrice
  | Balance (address : Nat)
  | TransactionCount (address : Nat)
deriving DecidableEq, Repr

/-- `environment::instruction::Instruction` (reply channels are implicit: each
processed instruction's reply is a field of its step output). -/
inductive Instruction where
  | AddAccount (address : Nat)
  | BlockUpdate (block_number block_timestamp : Nat)
  | Cheatcode (cheatcode : Cheatcodes)
  | Call (tx_env : TxEnv)
  | SetGasPrice (gas_price : Nat)
  | Transaction (tx_env : TxEnv)
  | Query (environment_data : EnvironmentData)
  | Stop
deriving DecidableEq, Repr

/-- `environment::instruction::ReceiptData`. -/
structure ReceiptData where
  block_number : Nat
  transaction_index : Nat
  cumulative_gas_per_block : Nat
deriving DecidableEq, Repr

/-- `environment::instruction::CheatcodesReturn`. -/
inductive CheatcodesReturn where
  | Load (value : Nat)
  | Store
  | Deal
  | Access (account_state : AccountState) (info : AccountInfo) (storage : Storage)
deriving DecidableEq, Repr

/-- `environment::instruction::Outcome`. -/
inductive Outcome where
  | AddAccountCompleted
  | BlockUpdateCompleted (receipt_data : ReceiptData)
  | CheatcodeReturn (ret : CheatcodesReturn)
  | CallCompleted (result : ExecutionResult)
  | SetGasPriceCompleted
  | TransactionCompleted (result : ExecutionResult) (receipt_data : ReceiptData)
  | QueryReturn (s : String)
  | StopCompleted (db : DB)
deriving DecidableEq, Repr

/-- `errors::ArbiterCoreError` (the kinds the worker can send). -/
inductive ArbiterCoreError where
  | EVMError (e : EvmErr)
  | AccountCreationError
  | AccountDoesNotExistError
  | ConversionError
deriving DecidableEq, Repr

/-- `environment::Broadcast`. -/
inductive Broadcast where
  | StopSignal
  | Event (logs : List Log)
deriving DecidableEq, Repr

/-! ## The worker state and step function -/

/-- The state owned by the worker thread: the database, the EVM block and
transaction environments, and the two per-block receipt counters (`U64` and
`U256` in the source; every update reduces them modulo the word size). -/
structure WorkerState where
  db : DB
  blockNumber : Nat
  blockTimestamp : Nat
  txEnv : TxEnv
  transaction_index : Nat
  cumulative_gas_per_block : Nat
deriving DecidableEq, Repr

/-- What one iteration of the worker loop makes observable: the value sent on
the instruction's reply channel (`none` when the worker dies before replying)
and the broadcasts posted on the event bus. -/
structure StepOutput where
  reply : Option (Except ArbiterCoreError Outcome)
  broadcasts : List Broadcast
deriving Repr

/-- How one iteration of the worker loop ends: continue with the next
instruction, `break` out of the loop (`Stop`), propagate an error out of the
thread closure via `?`, or panic (`unwrap` failure). -/
inductive Control where
  | next
  | stop
  | errored (e : ArbiterCoreError)
  | panicked
deriving DecidableEq, Repr

/-- The result of processing one instruction. -/
structure StepResult where
  output : StepOutput
  state : WorkerState
  control : Control
deriving Repr

/-- `convert_uint_to_u64`: succeeds exactly when the input fits in 64 bits. -/
def convert_uint_to_u64 (input : Nat) : Option Nat :=
  if input < 2 ^ 64 then some input else none

/-- A step that replies `r`, moves to state `s`, broadcasts nothing, and
continues the loop. -/
def replyStep (r : Except ArbiterCoreError Outcome) (s : WorkerState) : StepResult :=
  { output := { reply := some r, broadcasts := [] }, state := s, control := Control.next }

/-- One iteration of the worker loop of `Environment::run`
(`environment/mod.rs`, the `match instruction` dispatch). -/
def processInstruction (interp : Interp) (s : WorkerState) :
    Instruction → StepResult
  | .AddAccount address =>
    -- `HashMap::insert` stores the fresh default account unconditionally and
    -- returns the previous binding, which selects the reply.
    let db' := mapInsert s.db address defaultDbAccount
    match mapLookup s.db address with
    | none => replyStep (.ok .AddAccountCompleted) { s with db := db' }
    | some _ => replyStep (.error .AccountCreationError) { s with db := db' }
  | .BlockUpdate block_number block_timestamp =>
    -- `convert_uint_to_u64(evm.block().number).unwrap()` panics when the
    -- current block number does not fit in a `u64`.
    match convert_uint_to_u64 s.blockNumber with
    | none =>
      { output := { reply := none, broadcasts := [] }, state := s,
        control := Control.panicked }
    | some old =>
      let receipt_data : ReceiptData :=
        { block_number := old,
          transaction_index := s.transaction_index,
          cumulative_gas_per_block := s.cumulative_gas_per_block }
      replyStep (.ok (.BlockUpdateCompleted receipt_data))
        { s with blockNumber := block_number, blockTimestamp := block_timestamp,
                 transaction_index := 0, cumulative_gas_per_block := 0 }
  | .Cheatcode c =>
    match c with
    | .Load account key =>
      match mapLookup s.db account with
      | some acct =>
        let value := (mapLookup acct.storage key).getD 0
        replyStep (.ok (.CheatcodeReturn (.Load value))) s
      | none => replyStep (.error .AccountDoesNotExistError) s
    | .Store account key value =>
      match mapLookup s.db account with
      | some acct =>
        let acct' := { acct with storage := mapInsert acct.storage key value }
        replyStep (.ok (.CheatcodeReturn .Store))
          { s with db := mapInsert s.db account acct' }
      | none => replyStep (.error .AccountDoesNotExistError) s
    | .Deal address amount =>
      match mapLookup s.db address with
      | some acct =>
        let acct' := { acct with
          info := { acct.info with
            balance := (acct.info.balance + amount) % 2 ^ 256 } }
        replyStep (.ok (.CheatcodeReturn .Deal))
          { s with db := mapInsert s.db address acct' }
      | none => replyStep (.error .AccountDoesNotExistError) s
    | .Access address =>
      match mapLookup s.db address with
      | some acct =>
        replyStep
          (.ok (.CheatcodeReturn (.Access acct.account_state acct.info acct.storage))) s
      | none => replyStep (.error .AccountDoesNotExistError) s
  | .Call tx_env =>
    -- `*evm.tx_mut() = tx_env; let result = evm.transact()?.result;`
    -- an interpreter error propagates out of the thread closure: no reply.
    let s := { s with txEnv := tx_env }
    match interp tx_env s.blockNumber s.blockTimestamp s.db with
    | .ok (result, _) => replyStep (.ok (.CallCompleted result)) s
    | .error e =>
      { output := { reply := none, broadcasts := [] }, state := s,
        control := Control.errored (.EVMError e) }
  | .SetGasPrice gas_price =>
    replyStep (.ok .SetGasPriceCompleted)
      { s with txEnv := { s.txEnv with gas_price := gas_price } }
  | .Transaction tx_env =>
    let s := { s with txEnv := tx_env }
    match interp tx_env s.blockNumber s.blockTimestamp s.db with
    | .error e => replyStep (.error (.EVMError e)) s
    | .ok (execution_result, db') =>
      let cg := (s.cumulative_gas_per_block + execution_result.gasUsed) % 2 ^ 256
      let s := { s with db := db', cumulative_gas_per_block := cg }
      match convert_uint_to_u64 s.blockNumber with
      | none =>
        -- `convert_uint_to_u64(evm.block().number)?` propagates: no reply.
        { output := { reply := none, broadcasts := [] }, state := s,
          control := Control.errored .ConversionError }
      | some block_number =>
        let receipt_data : ReceiptData :=
          { block_number := block_number,
            transaction_index := s.transaction_index,
            cumulative_gas_per_block := s.cumulative_gas_per_block }
        { output :=
            { reply := some (.ok (.TransactionCompleted execution_result receipt_data)),
              broadcasts := [Broadcast.Event execution_result.execLogs] },
          state := { s with
            transaction_index := (s.transaction_index + 1) % 2 ^ 64 },
          control := Control.next }
  | .Query environment_data =>
    match environment_data with
    | .BlockNumber => replyStep (.ok (.QueryReturn (toString s.blockNumber))) s
    | .BlockTimestamp => replyStep (.ok (.QueryReturn (toString s.blockTimestamp))) s
    | .GasPrice => replyStep (.ok (.QueryReturn (toString s.txEnv.gas_price))) s
    | .Balance address =>
      match mapLookup s.db address with
      | some acct => replyStep (.ok (.QueryReturn (toString acct.info.balance))) s
      | none => replyStep (.error .AccountDoesNotExistError) s
    | .TransactionCount address =>
      match mapLookup s.db address with
      | some acct => replyStep (.ok (.QueryReturn (toString acct.info.nonce))) s
      | none => replyStep (.error .AccountDoesNotExistError) s
  | .Stop =>
    { output := { reply := some (.ok (.StopCompleted s.db)),
                  broadcasts := [Broadcast.StopSignal] },
      state := s, control := Control.stop }

/-! ## Running the worker over a list of instructions -/

/-- How the worker loop ends on a finite instruction list. -/
inductive WorkerExit where
  | finished
  | stopped
  | errored (e : ArbiterCoreError)
  | panicked
deriving DecidableEq, Repr

/-- How a loop iteration's `Control` ends the whole run when the iteration
does not continue. -/
def Control.toExit : Control → WorkerExit
  | .next => WorkerExit.finished
  | .stop => WorkerExit.stopped
  | .errored e => WorkerExit.errored e
  | .panicked => WorkerExit.panicked

/-- Run the worker loop over a list of instructions, collecting each executed
iteration's observable output, the final state, and how the loop ended. -/
def runWorker (interp : Interp) (s : WorkerState) :
    List Instruction → List StepOutput × WorkerState × WorkerExit
  | [] => ([], s, WorkerExit.finished)
  | i :: rest =>
    let r := processInstruction interp s i
    if r.control = Control.next then
      let t := runWorker interp r.state rest
      (r.output :: t.1, t.2)
    else ([r.output], r.state, r.control.toExit)

/-! ## Middleware: tx-env construction and receipt synthesis
(`middleware/mod.rs`, `RevmMiddleware::send_transaction`) -/

/-- The fields of an `ethers` `TypedTransaction` that `send_transaction`
reads, plus the fields whose silent dropping is under scrutiny. -/
structure TypedTransaction where
  to_address : Option Nat
  tx_data : Option (List Nat)
  tx_value : Option Nat
  tx_nonce : Option Nat
  tx_access_list : List (Nat × List Nat)
  is_eip2930 : Bool
deriving DecidableEq, Repr

/-- Big-endian byte decomposition of an unsigned integer of `width` bytes. -/
def beBytes (width n : Nat) : List Nat :=
  (List.range width).map fun i => n / 256 ^ (width - 1 - i) % 256

/-- The 20 bytes of an address (`Address::as_bytes`). -/
def addressBytes : Nat → List Nat := beBytes 20

/-- The 32 bytes of a 256-bit word (`H256::as_bytes`). -/
def wordBytes : Nat → List Nat := beBytes 32

/-- The ASCII bytes of the decimal rendering of a number
(`u64::to_string().as_bytes()`). -/
def decimalBytes (n : Nat) : List Nat := (toString n).data.map Char.toNat

/-- `RevmMiddleware::send_transaction`, lines 323–344: build the `TxEnv`
submitted to the worker.  Fails (`MissingData`) when the transaction carries
no calldata. -/
def buildTxEnv (wallet_address gas_price : Nat) (tx : TypedTransaction) :
    Option TxEnv :=
  let transact_to := match tx.to_address with
    | some a => TransactTo.Call a
    | none => TransactTo.Create
  match tx.tx_data with
  | none => none
  | some d =>
    some { caller := wallet_address
           gas_limit := 2 ^ 64 - 1
           gas_price := gas_price
           gas_priority_fee := none
           transact_to := transact_to
           value := 0
           data := d
           chain_id := none
           nonce := none
           access_list := [] }

/-- The fields of the `ethers` `TransactionReceipt` that `send_transaction`
populates.  Hashes and the bloom filter are represented as `Nat`. -/
structure TransactionReceipt where
  block_hash : Option Nat
  block_number : Option Nat
  contract_address : Option Nat
  logs : List Log
  sender : Nat
  gas_used : Option Nat
  effective_gas_price : Option Nat
  transaction_hash : Nat
  to_address : Option Nat
  cumulative_gas_used : Nat
  status : Option Nat
  logs_bloom : Nat
  transaction_type : Option Nat
  transaction_index : Nat
deriving DecidableEq, Repr

/-- The failure modes of the modelled `send_transaction` path. -/
inductive MiddlewareError where
  /-- `RevmMiddlewareError::MissingData` (no calldata on the transaction). -/
  | MissingData
  /-- A worker error forwarded off the reply channel. -/
  | Worker (e : ArbiterCoreError)
  /-- `unpack_execution_result` on a non-`Success` result. -/
  | ExecutionRevert
  /-- `panic!("This should never happen!")` or `Option::unwrap` on `None`. -/
  | Panicked
deriving DecidableEq, Repr

/-- Modelled from the spec: `unpack_execution_result`
(`middleware/transactions.rs`, not among the provided sources) unpacks a
`Success` execution result into its `(gas_used, gas_refunded, logs, output)`
fields — converting the `revm` logs to `ethers` logs, an identity under this
embedding — and fails on `Revert`/`Halt`. -/
def unpack_execution_result (r : ExecutionResult) :
    Except MiddlewareError (Nat × Nat × List Log × Output) :=
  match r with
  | .Success g gr logs output => .ok (g, gr, logs, output)
  | _ => .error MiddlewareError.ExecutionRevert

/-- `send_transaction`, lines 362–491: synthesize the `TransactionReceipt`
from the `TransactionCompleted` outcome received off the reply channel.
`sha : List Nat → Nat` abstracts the SHA-256 digest (the `sha2` crate) and
`accrue : Nat → List Nat → Nat` abstracts `Bloom::accrue` on raw bytes (the
`ethers` crate); neither is code of this repository. -/
def synthesizeReceipt (sha : List Nat → Nat) (accrue : Nat → List Nat → Nat)
    (wallet_address gas_price : Nat) (tx : TypedTransaction)
    (outcome : Except ArbiterCoreError Outcome) :
    Except MiddlewareError TransactionReceipt :=
  match buildTxEnv wallet_address gas_price tx with
  | none => .error MiddlewareError.MissingData
  | some tx_env =>
    match outcome with
    | .error e => .error (MiddlewareError.Worker e)
    | .ok (.TransactionCompleted execution_result receipt_data) =>
      match unpack_execution_result execution_result with
      | .error e => .error e
      | .ok (gas_used, _, logs, output) =>
        let to_address : Option Nat := match tx_env.transact_to with
          | .Call address => some address
          | .Create => none
        let sender := wallet_address
        let hash := sha (addressBytes sender ++ tx_env.data)
        let block_hash := some (sha (decimalBytes receipt_data.block_number))
        match output with
        | .Create _ created =>
          match created with
          | none => .error MiddlewareError.Panicked
          | some created_address =>
            .ok { block_hash := block_hash
                  block_number := some receipt_data.block_number
                  contract_address := some created_address
                  logs := logs
                  sender := sender
                  gas_used := some gas_used
                  effective_gas_price := some tx_env.gas_price
                  transaction_hash := hash
                  to_address := to_address
                  cumulative_gas_used := receipt_data.cumulative_gas_per_block
                  status := some 1
                  logs_bloom :=
                    logs.foldl (fun bloom log =>
                      log.topics.foldl (fun b topic => accrue b (wordBytes topic))
                        (accrue bloom (addressBytes log.address))) 0
                  transaction_type := if tx.is_eip2930 then some 1 else none
                  transaction_index := receipt_data.transaction_index }
        | .Call _ =>
          .ok { block_hash := block_hash
                block_number := some receipt_data.block_number
                contract_address := none
                logs := logs
                sender := sender
                gas_used := some gas_used
                effective_gas_price := some tx_env.gas_price
                transaction_hash := hash
                to_address := to_address
                cumulative_gas_used := receipt_data.cumulative_gas_per_block
                status := some 1
                logs_bloom :=
                  logs.foldl (fun bloom log =>
                    log.topics.foldl (fun b topic => accrue b (wordBytes topic))
                      (accrue bloom (addressBytes log.address))) 0
                transaction_type := if tx.is_eip2930 then some 1 else none
                transaction_index := receipt_data.transaction_index }
    | .ok _ => .error MiddlewareError.Panicked

/-- The bloom filter described by the spec: starting from an empty bloom,
accrue each log's address bytes and then every topic of that log, over all
logs in order. -/
def specLogsBloom (accrue : Nat → List Nat → Nat) (logs : List Log) : Nat :=
  logs.foldl (fun bloom log =>
    log.topics.foldl (fun b topic => accrue b (wordBytes topic))
      (accrue bloom (addressBytes log.address))) 0

/-! ## Finite-map lemmas -/

theorem mapLookup_mapInsert_self {α : Type} (l : List (Nat × α)) (k : Nat) (v : α) :
    mapLookup (mapInsert l k v) k = some v := by
  induction l with
  | nil => simp [mapInsert, mapLookup]
  | cons p rest ih =>
    obtain ⟨k', v'⟩ := p
    by_cases h : k' = k <;> simp [mapInsert, mapLookup, h, ih]

theorem mapLookup_mapInsert_ne {α : Type} (l : List (Nat × α)) (k k' : Nat) (v : α)
    (h : k ≠ k') : mapLookup (mapInsert l k v) k' = mapLookup l k' := by
  induction l with
  | nil => simp [mapInsert, mapLookup, h]
  | cons p rest ih =>
    obtain ⟨k'', v''⟩ := p
    by_cases hk : k'' = k <;> simp [mapInsert, mapLookup, hk, h, ih]

theorem mapInsert_self_of_lookup {α : Type} (l : List (Nat × α)) (k : Nat) (v : α)
    (h : mapLookup l k = some v) : mapInsert l k v = l := by
  induction l with
  | nil => simp [mapLookup] at h
  | cons p rest ih =>
    obtain ⟨k', v'⟩ := p
    by_cases hk : k' = k
    · simp only [mapLookup, if_pos hk, Option.some.injEq] at h
      simp [mapInsert, hk, h]
    · simp only [mapLookup, if_neg hk] at h
      simp [mapInsert, hk, ih h]

/-! ## Concrete fixtures used by witnesses and counterexamples -/

/-- A minimal transaction environment. -/
def emptyTxEnv : TxEnv :=
  { caller := 0, gas_limit := 0, gas_price := 0, gas_priority_fee := none,
    transact_to := TransactTo.Create, value := 0, data := [], chain_id := none,
    nonce := none, access_list := [] }

/-- The worker state right after `Environment::run` spawns the thread over an
empty database. -/
def initState : WorkerState :=
  { db := [], blockNumber := 0, blockTimestamp := 0, txEnv := emptyTxEnv,
    transaction_index := 0, cumulative_gas_per_block := 0 }

/-- An interpreter that always fails with error payload `7`. -/
def failingInterp : Interp := fun _ _ _ _ => Except.error 7

/-- An interpreter that always succeeds, burning `g` gas, emitting no logs and
leaving the database unchanged. -/
def constInterp (g : Nat) : Interp :=
  fun _ _ _ db => Except.ok (ExecutionResult.Success g 0 [] (Output.Call []), db)

/-! ## Claims -/

/-- **C2**: when `transact_commit` fails on a `Transaction` instruction, the
worker replies with an `EVMError` outcome, broadcasts nothing, leaves the
database and both receipt counters unchanged (only the EVM tx-env was
overwritten), and continues the loop. -/
theorem transaction_failure_behavior (interp : Interp) (s : WorkerState)
    (tx : TxEnv) (e : EvmErr)
    (h : interp tx s.blockNumber s.blockTimestamp s.db = Except.error e) :
    processInstruction interp s (Instruction.Transaction tx) =
      { output := { reply := some (Except.error (ArbiterCoreError.EVMError e)),
                    broadcasts := [] },
        state := { s with txEnv := tx },
        control := Control.next } := by
  simp [processInstruction, replyStep, h]

/-- Witness for C2 at a concrete failing interpreter. -/
theorem transaction_failure_behavior_witness :
    processInstruction failingInterp initState (Instruction.Transaction emptyTxEnv) =
      { output := { reply := some (Except.error (ArbiterCoreError.EVMError 7)),
                    broadcasts := [] },
        state := { initState with txEnv := emptyTxEnv },
        control := Control.next } :=
  transaction_failure_behavior failingInterp initState emptyTxEnv 7 rfl

/-- **C4**: a second `AddAccount` for the same address yields
`AccountCreationError` and leaves the database — in particular the account
stored at that address — exactly as it was after the first `AddAccount`,
which succeeded and stored the default account. -/
theorem add_account_twice_behavior (interp : Interp) (s : WorkerState) (a : Nat)
    (h : mapLookup s.db a = none) :
    processInstruction interp s (Instruction.AddAccount a) =
      replyStep (Except.ok Outcome.AddAccountCompleted)
        { s with db := mapInsert s.db a defaultDbAccount } ∧
    processInstruction interp { s with db := mapInsert s.db a defaultDbAccount }
        (Instruction.AddAccount a) =
      replyStep (Except.error ArbiterCoreError.AccountCreationError)
        { s with db := mapInsert s.db a defaultDbAccount } ∧
    mapLookup (mapInsert s.db a defaultDbAccount) a = some defaultDbAccount := by
  refine ⟨?_, ?_, mapLookup_mapInsert_self s.db a defaultDbAccount⟩
  · simp [processInstruction, h]
  · simp [processInstruction, mapLookup_mapInsert_self,
      mapInsert_self_of_lookup (mapInsert s.db a defaultDbAccount) a defaultDbAccount
        (mapLookup_mapInsert_self s.db a defaultDbAccount)]

/-- Witness for C4 at address `170` over the empty database. -/
theorem add_account_twice_behavior_witness :
    processInstruction failingInterp initState (Instruction.AddAccount 170) =
      replyStep (Except.ok Outcome.AddAccountCompleted)
        { initState with db := mapInsert initState.db 170 defaultDbAccount } ∧
    processInstruction failingInterp
        { initState with db := mapInsert initState.db 170 defaultDbAccount }
        (Instruction.AddAccount 170) =
      replyStep (Except.error ArbiterCoreError.AccountCreationError)
        { initState with db := mapInsert initState.db 170 defaultDbAccount } ∧
    mapLookup (mapInsert initState.db 170 defaultDbAccount) 170 =
      some defaultDbAccount :=
  add_account_twice_behavior failingInterp initState 170 rfl

/-- **C5**: on an account present in the database, `Cheatcode::Store(a,k,v)`
followed by `Cheatcode::Load(a,k)` returns exactly `v`, and
`Cheatcode::Load(a,k')` on a slot never written on `a` returns `0`. -/
theorem store_load_roundtrip (interp : Interp) (s : WorkerState)
    (a k v k' : Nat) (acct : DbAccount)
    (h : mapLookup s.db a = some acct) (hk' : mapLookup acct.storage k' = none) :
    (processInstruction interp s (Instruction.Cheatcode (Cheatcodes.Store a k v))).output.reply =
      some (Except.ok (Outcome.CheatcodeReturn CheatcodesReturn.Store)) ∧
    (processInstruction interp
        (processInstruction interp s (Instruction.Cheatcode (Cheatcodes.Store a k v))).state
        (Instruction.Cheatcode (Cheatcodes.Load a k))).output.reply =
      some (Except.ok (Outcome.CheatcodeReturn (CheatcodesReturn.Load v))) ∧
    (processInstruction interp s (Instruction.Cheatcode (Cheatcodes.Load a k'))).output.reply =
      some (Except.ok (Outcome.CheatcodeReturn (CheatcodesReturn.Load 0))) := by
  refine ⟨?_, ?_, ?_⟩
  · simp [processInstruction, replyStep, h]
  · simp [processInstruction, h, replyStep, mapLookup_mapInsert_self]
  · simp [processInstruction, replyStep, h, hk']

/-- Witness for C5: store `42` at slot `1` of account `170`, load it back,
and load the never-written slot `2`. -/
theorem store_load_roundtrip_witness :
    (processInstruction failingInterp
        { initState with db := [(170, defaultDbAccount)] }
        (Instruction.Cheatcode (Cheatcodes.Store 170 1 42))).output.reply =
      some (Except.ok (Outcome.CheatcodeReturn CheatcodesReturn.Store)) ∧
    (processInstruction failingInterp
        (processInstruction failingInterp
          { initState with db := [(170, defaultDbAccount)] }
          (Instruction.Cheatcode (Cheatcodes.Store 170 1 42))).state
        (Instruction.Cheatcode (Cheatcodes.Load 170 1))).output.reply =
      some (Except.ok (Outcome.CheatcodeReturn (CheatcodesReturn.Load 42))) ∧
    (processInstruction failingInterp
        { initState with db := [(170, defaultDbAccount)] }
        (Instruction.Cheatcode (Cheatcodes.Load 170 2))).output.reply =
      some (Except.ok (Outcome.CheatcodeReturn (CheatcodesReturn.Load 0))) :=
  store_load_roundtrip failingInterp { initState with db := [(170, defaultDbAccount)] }
    170 1 42 2 defaultDbAccount rfl rfl

/-- **C6**: every cheatcode — `Load`, `Store`, `Deal`, `Access` — whose target
address is absent from the database replies with `AccountDoesNotExistError`
(and changes nothing). -/
theorem cheatcode_missing_account_errors (interp : Interp) (s : WorkerState)
    (a k v amt : Nat) (h : mapLookup s.db a = none) :
    processInstruction interp s (Instruction.Cheatcode (Cheatcodes.Load a k)) =
      replyStep (Except.error ArbiterCoreError.AccountDoesNotExistError) s ∧
    processInstruction interp s (Instruction.Cheatcode (Cheatcodes.Store a k v)) =
      replyStep (Except.error ArbiterCoreError.AccountDoesNotExistError) s ∧
    processInstruction interp s (Instruction.Cheatcode (Cheatcodes.Deal a amt)) =
      replyStep (Except.error ArbiterCoreError.AccountDoesNotExistError) s ∧
    processInstruction interp s (Instruction.Cheatcode (Cheatcodes.Access a)) =
      replyStep (Except.error ArbiterCoreError.AccountDoesNotExistError) s := by
  refine ⟨?_, ?_, ?_, ?_⟩ <;> simp [processInstruction, h]

/-- Witness for C6 at address `170` over the empty database. -/
theorem cheatcode_missing_account_errors_witness :
    processInstruction failingInterp initState
        (Instruction.Cheatcode (Cheatcodes.Load 170 1)) =
      replyStep (Except.error ArbiterCoreError.AccountDoesNotExistError) initState ∧
    processInstruction failingInterp initState
        (Instruction.Cheatcode (Cheatcodes.Store 170 1 42)) =
      replyStep (Except.error ArbiterCoreError.AccountDoesNotExistError) initState ∧
    processInstruction failingInterp initState
        (Instruction.Cheatcode (Cheatcodes.Deal 170 1000)) =
      replyStep (Except.error ArbiterCoreError.AccountDoesNotExistError) initState ∧
    processInstruction failingInterp initState
        (Instruction.Cheatcode (Cheatcodes.Access 170)) =
      replyStep (Except.error ArbiterCoreError.AccountDoesNotExistError) initState :=
  cheatcode_missing_account_errors failingInterp initState 170 1 42 1000 rfl

/-- **C7**: `BlockUpdate(n, t)` replies with the *prior* block's
`ReceiptData`, then the post-instruction state has block number `n`,
timestamp `t`, and both counters zeroed; consequently the next committed
transaction's receipt shows block number `n`, transaction index `0`, and
cumulative gas equal to just its own `gas_used`. -/
theorem block_update_behavior (interp : Interp) (s : WorkerState)
    (n t : Nat) (tx : TxEnv) (res : ExecutionResult) (db' : DB)
    (hold : s.blockNumber < 2 ^ 64) (hn : n < 2 ^ 64)
    (hg : res.gasUsed < 2 ^ 256)
    (htx : interp tx n t s.db = Except.ok (res, db')) :
    processInstruction interp s (Instruction.BlockUpdate n t) =
      replyStep (Except.ok (Outcome.BlockUpdateCompleted
          { block_number := s.blockNumber,
            transaction_index := s.transaction_index,
            cumulative_gas_per_block := s.cumulative_gas_per_block }))
        { s with blockNumber := n, blockTimestamp := t,
                 transaction_index := 0, cumulative_gas_per_block := 0 } ∧
    (processInstruction interp
        (processInstruction interp s (Instruction.BlockUpdate n t)).state
        (Instruction.Transaction tx)).output.reply =
      some (Except.ok (Outcome.TransactionCompleted res
          { block_number := n, transaction_index := 0,
            cumulative_gas_per_block := res.gasUsed })) := by
  have hcold : convert_uint_to_u64 s.blockNumber = some s.blockNumber := by
    unfold convert_uint_to_u64; rw [if_pos hold]
  have hcn : convert_uint_to_u64 n = some n := by
    unfold convert_uint_to_u64; rw [if_pos hn]
  have hmod : res.gasUsed % 2 ^ 256 = res.gasUsed := Nat.mod_eq_of_lt hg
  have h1 : processInstruction interp s (Instruction.BlockUpdate n t) =
      replyStep (Except.ok (Outcome.BlockUpdateCompleted
          { block_number := s.blockNumber,
            transaction_index := s.transaction_index,
            cumulative_gas_per_block := s.cumulative_gas_per_block }))
        { s with blockNumber := n, blockTimestamp := t,
                 transaction_index := 0, cumulative_gas_per_block := 0 } := by
    simp only [processInstruction, hcold]
  refine ⟨h1, ?_⟩
  rw [h1]
  simp only [processInstruction, replyStep, htx, hcn, hmod, Nat.zero_add]

/-- Witness for C7: update to block `1` at timestamp `100`, then commit a
transaction burning `21000` gas. -/
theorem block_update_behavior_witness :
    processInstruction (constInterp 21000) initState (Instruction.BlockUpdate 1 100) =
      replyStep (Except.ok (Outcome.BlockUpdateCompleted
          { block_number := initState.blockNumber,
            transaction_index := initState.transaction_index,
            cumulative_gas_per_block := initState.cumulative_gas_per_block }))
        { initState with blockNumber := 1, blockTimestamp := 100,
                         transaction_index := 0, cumulative_gas_per_block := 0 } ∧
    (processInstruction (constInterp 21000)
        (processInstruction (constInterp 21000) initState
          (Instruction.BlockUpdate 1 100)).state
        (Instruction.Transaction emptyTxEnv)).output.reply =
      some (Except.ok (Outcome.TransactionCompleted
          (ExecutionResult.Success 21000 0 [] (Output.Call []))
          { block_number := 1, transaction_index := 0,
            cumulative_gas_per_block := 21000 })) :=
  block_update_behavior (constInterp 21000) initState 1 100 emptyTxEnv
    (ExecutionResult.Success 21000 0 [] (Output.Call [])) initState.db
    (by decide) (by decide) (by decide) rfl

/-- **C9**: on `Stop` the worker broadcasts `StopSignal`, replies
`StopCompleted` carrying the final database, and exits; instructions after a
`Stop` are never processed (the run over `Stop :: rest` is independent of
`rest`). -/
theorem stop_behavior (interp : Interp) (s : WorkerState)
    (rest : List Instruction) :
    runWorker interp s (Instruction.Stop :: rest) =
      ([{ reply := some (Except.ok (Outcome.StopCompleted s.db)),
          broadcasts := [Broadcast.StopSignal] }], s, WorkerExit.stopped) := rfl

/-- **C10**: the tx-env submitted by `send_transaction` always carries
`value = 0`, `nonce = None`, `chain_id = None`, and an empty access list —
whatever value, nonce, or access list the input transaction set. -/
theorem send_transaction_tx_env (addr gp : Nat) (tx : TypedTransaction)
    (te : TxEnv) (h : buildTxEnv addr gp tx = some te) :
    te.value = 0 ∧ te.nonce = none ∧ te.chain_id = none ∧
    te.access_list = [] := by
  unfold buildTxEnv at h
  cases hd : tx.tx_data with
  | none => rw [hd] at h; simp at h
  | some d =>
    rw [hd] at h
    simp only [Option.some.injEq] at h
    subst h
    exact ⟨rfl, rfl, rfl, rfl⟩

/-- A transaction that sets a nonzero value, a nonce, and an access list. -/
def sampleTypedTx : TypedTransaction :=
  { to_address := some 5, tx_data := some [1, 2], tx_value := some 999,
    tx_nonce := some 3, tx_access_list := [(1, [2])], is_eip2930 := false }

/-- The tx-env `send_transaction` builds from `sampleTypedTx`. -/
def sampleTxEnv : TxEnv :=
  { caller := 9, gas_limit := 2 ^ 64 - 1, gas_price := 11,
    gas_priority_fee := none, transact_to := TransactTo.Call 5, value := 0,
    data := [1, 2], chain_id := none, nonce := none, access_list := [] }

/-- Witness for C10: `sampleTypedTx` sets `value = 999`, a nonce, and an
access list, yet the submitted tx-env drops them all. -/
theorem send_transaction_tx_env_witness :
    sampleTxEnv.value = 0 ∧ sampleTxEnv.nonce = none ∧
    sampleTxEnv.chain_id = none ∧ sampleTxEnv.access_list = [] :=
  send_transaction_tx_env 9 11 sampleTypedTx sampleTxEnv rfl

/-- **C3, counterexample**: a `Call` whose non-committing `transact` fails
does *not* produce an `EVMError` outcome on its reply channel — nothing is
sent (`reply = none`) — and the worker does not continue: the loop terminates
with the error and the following `Query` instruction is never processed. -/
theorem call_error_counterexample :
    (processInstruction failingInterp initState (Instruction.Call emptyTxEnv)).output.reply =
      none ∧
    (processInstruction failingInterp initState (Instruction.Call emptyTxEnv)).control =
      Control.errored (ArbiterCoreError.EVMError 7) ∧
    runWorker failingInterp initState
        [Instruction.Call emptyTxEnv, Instruction.Query EnvironmentData.BlockNumber] =
      ([{ reply := none, broadcasts := [] }],
       { initState with txEnv := emptyTxEnv },
       WorkerExit.errored (ArbiterCoreError.EVMError 7)) :=
  ⟨rfl, rfl, rfl⟩

/-- **C3, amended**: a `Transaction` whose `transact_commit` fails is turned
into an `EVMError` outcome on its reply channel and the worker continues with
the next instruction; but a `Call` whose non-committing `transact` fails
sends nothing on its reply channel — the interpreter error propagates out of
the worker loop, which terminates, leaving subsequent instructions
unprocessed. -/
theorem evm_error_handling_behavior (interp : Interp) (s : WorkerState)
    (tx : TxEnv) (e : EvmErr) (rest : List Instruction)
    (h : interp tx s.blockNumber s.blockTimestamp s.db = Except.error e) :
    (processInstruction interp s (Instruction.Transaction tx)).output.reply =
      some (Except.error (ArbiterCoreError.EVMError e)) ∧
    (processInstruction interp s (Instruction.Transaction tx)).control =
      Control.next ∧
    runWorker interp s (Instruction.Call tx :: rest) =
      ([{ reply := none, broadcasts := [] }], { s with txEnv := tx },
       WorkerExit.errored (ArbiterCoreError.EVMError e)) := by
  refine ⟨?_, ?_, ?_⟩
  · simp [processInstruction, replyStep, h]
  · simp [processInstruction, replyStep, h]
  · simp [runWorker, processInstruction, h, Control.toExit]

/-- Witness for the amended C3 at a concrete failing interpreter. -/
theorem evm_error_handling_behavior_witness :
    (processInstruction failingInterp initState
        (Instruction.Transaction emptyTxEnv)).output.reply =
      some (Except.error (ArbiterCoreError.EVMError 7)) ∧
    (processInstruction failingInterp initState
        (Instruction.Transaction emptyTxEnv)).control = Control.next ∧
    runWorker failingInterp initState [Instruction.Call emptyTxEnv] =
      ([{ reply := none, broadcasts := [] }],
       { initState with txEnv := emptyTxEnv },
       WorkerExit.errored (ArbiterCoreError.EVMError 7)) :=
  evm_error_handling_behavior failingInterp initState emptyTxEnv 7 [] rfl

/-- **C8**: every receipt synthesized by a successful `send_transaction` has
`transaction_hash = SHA-256(sender_bytes ++ calldata)`,
`block_hash = SHA-256(decimal(block_number))`, `status = 1`,
`cumulative_gas_used` equal to the worker's `cumulative_gas_per_block` from
the `ReceiptData`, and `logs_bloom` obtained by accruing each log's address
bytes and every topic of every log into an initially empty bloom. -/
theorem send_transaction_receipt_fields
    (sha : List Nat → Nat) (accrue : Nat → List Nat → Nat)
    (wallet gp : Nat) (tx : TypedTransaction) (d : List Nat)
    (g gr : Nat) (logs : List Log) (out : Output) (rd : ReceiptData)
    (receipt : TransactionReceipt)
    (hd : tx.tx_data = some d)
    (h : synthesizeReceipt sha accrue wallet gp tx
        (Except.ok (Outcome.TransactionCompleted
          (ExecutionResult.Success g gr logs out) rd)) = Except.ok receipt) :
    receipt.transaction_hash = sha (addressBytes wallet ++ d) ∧
    receipt.block_hash = some (sha (decimalBytes rd.block_number)) ∧
    receipt.status = some 1 ∧
    receipt.cumulative_gas_used = rd.cumulative_gas_per_block ∧
    receipt.logs_bloom = specLogsBloom accrue logs := by
  unfold synthesizeReceipt buildTxEnv at h
  rw [hd] at h
  cases out with
  | Call bytes =>
    simp only [unpack_execution_result] at h
    rw [Except.ok.injEq] at h
    subst h
    exact ⟨rfl, rfl, rfl, rfl, rfl⟩
  | Create bytes created =>
    cases created with
    | none => simp [unpack_execution_result] at h
    | some ca =>
      simp only [unpack_execution_result] at h
      rw [Except.ok.injEq] at h
      subst h
      exact ⟨rfl, rfl, rfl, rfl, rfl⟩

/-- Digest stand-in used by the C8 witness: the input length. -/
def sampleSha : List Nat → Nat := fun l => l.length

/-- Bloom-accrual stand-in used by the C8 witness. -/
def sampleAccrue : Nat → List Nat → Nat := fun b l => 2 * b + l.length

/-- One log at address `3` with two topics. -/
def sampleLogs : List Log := [{ address := 3, topics := [4, 5], data := [] }]

/-- Receipt data as delivered by the worker for the C8 witness. -/
def sampleRd : ReceiptData :=
  { block_number := 2, transaction_index := 1, cumulative_gas_per_block := 777 }

/-- The receipt `send_transaction` synthesizes in the C8 witness scenario. -/
def sampleReceipt : TransactionReceipt :=
  { block_hash := some 1, block_number := some 2, contract_address := none,
    logs := sampleLogs, sender := 9, gas_used := some 5,
    effective_gas_price := some 11,
    transaction_hash := 22, to_address := some 5, cumulative_gas_used := 777,
    status := some 1, logs_bloom := 176, transaction_type := none,
    transaction_index := 1 }

/-- Witness for C8 on a concrete successful `Call`-output transaction. -/
theorem send_transaction_receipt_fields_witness :
    sampleReceipt.transaction_hash = sampleSha (addressBytes 9 ++ [1, 2]) ∧
    sampleReceipt.block_hash = some (sampleSha (decimalBytes sampleRd.block_number)) ∧
    sampleReceipt.status = some 1 ∧
    sampleReceipt.cumulative_gas_used = sampleRd.cumulative_gas_per_block ∧
    sampleReceipt.logs_bloom = specLogsBloom sampleAccrue sampleLogs :=
  send_transaction_receipt_fields sampleSha sampleAccrue 9 11 sampleTypedTx
    [1, 2] 5 0 sampleLogs (Output.Call []) sampleRd sampleReceipt rfl (by rfl)

/-! ## C1 machinery: committed-transaction receipts along a run -/

/-- The committed-transaction receipts visible in a run's outputs: for every
`TransactionCompleted` reply, the executed result's `gas_used` paired with
its `ReceiptData`, in processing order. -/
def txReceipts (outs : List StepOutput) : List (Nat × ReceiptData) :=
  outs.filterMap fun o =>
    match o.reply with
    | some (Except.ok (Outcome.TransactionCompleted res rd)) =>
      some (res.gasUsed, rd)
    | _ => none

theorem txReceipts_cons_commit (o : StepOutput) (outs : List StepOutput)
    (res : ExecutionResult) (rd : ReceiptData)
    (h : o.reply = some (Except.ok (Outcome.TransactionCompleted res rd))) :
    txReceipts (o :: outs) = (res.gasUsed, rd) :: txReceipts outs := by
  simp [txReceipts, List.filterMap_cons, h]

theorem txReceipts_cons_skip (o : StepOutput) (outs : List StepOutput)
    (h : ∀ res rd,
      o.reply ≠ some (Except.ok (Outcome.TransactionCompleted res rd))) :
    txReceipts (o :: outs) = txReceipts outs := by
  have hnone : (match o.reply with
      | some (Except.ok (Outcome.TransactionCompleted res rd)) =>
        some (res.gasUsed, rd)
      | _ => none) = (none : Option (Nat × ReceiptData)) := by
    cases hr : o.reply with
    | none => rfl
    | some x =>
      cases x with
      | error e => rfl
      | ok oc =>
        cases oc with
        | TransactionCompleted res rd => exact absurd hr (h res rd)
        | AddAccountCompleted => rfl
        | BlockUpdateCompleted r => rfl
        | CheatcodeReturn c => rfl
        | CallCompleted r => rfl
        | SetGasPriceCompleted => rfl
        | QueryReturn str => rfl
        | StopCompleted db => rfl
  simp [txReceipts, List.filterMap_cons, hnone]

theorem runWorker_cons_next (interp : Interp) (s : WorkerState)
    (i : Instruction) (rest : List Instruction)
    (h : (processInstruction interp s i).control = Control.next) :
    runWorker interp s (i :: rest) =
      ((processInstruction interp s i).output ::
         (runWorker interp (processInstruction interp s i).state rest).1,
       (runWorker interp (processInstruction interp s i).state rest).2) := by
  simp [runWorker, h]

theorem runWorker_cons_halt (interp : Interp) (s : WorkerState)
    (i : Instruction) (rest : List Instruction)
    (h : (processInstruction interp s i).control ≠ Control.next) :
    runWorker interp s (i :: rest) =
      ([(processInstruction interp s i).output],
       (processInstruction interp s i).state,
       ((processInstruction interp s i).control).toExit) := by
  simp [runWorker, h]

theorem sum_take_le_sum_take (l : List Nat) (m n : Nat) (h : m ≤ n) :
    (l.take m).sum ≤ (l.take n).sum := by
  induction l generalizing m n with
  | nil => simp
  | cons a t ih =>
    cases m with
    | zero => simp
    | succ m' =>
      cases n with
      | zero => omega
      | succ n' =>
        simp only [List.take_succ_cons, List.sum_cons]
        exact Nat.add_le_add_left (ih m' n' (Nat.le_of_succ_le_succ h)) a

/-- Shape of one worker iteration on any non-`BlockUpdate` instruction:
either it is a committed `Transaction` — the reply is `TransactionCompleted`,
the loop continues, the receipt carries the pre-step `transaction_index` and
the post-step (wrapped) cumulative gas, and the state counters advance
accordingly — or the reply is not `TransactionCompleted` and, if the loop
continues, both counters are untouched. -/
theorem step_shape (interp : Interp) (s : WorkerState) (i : Instruction)
    (hbu : ∀ n t, i ≠ Instruction.BlockUpdate n t) :
    (∃ res rd,
      (processInstruction interp s i).output.reply =
        some (Except.ok (Outcome.TransactionCompleted res rd)) ∧
      (processInstruction interp s i).control = Control.next ∧
      rd.transaction_index = s.transaction_index ∧
      rd.cumulative_gas_per_block =
        (s.cumulative_gas_per_block + res.gasUsed) % 2 ^ 256 ∧
      (processInstruction interp s i).state.transaction_index =
        (s.transaction_index + 1) % 2 ^ 64 ∧
      (processInstruction interp s i).state.cumulative_gas_per_block =
        (s.cumulative_gas_per_block + res.gasUsed) % 2 ^ 256) ∨
    ((∀ res rd,
        (processInstruction interp s i).output.reply ≠
          some (Except.ok (Outcome.TransactionCompleted res rd))) ∧
     ((processInstruction interp s i).control = Control.next →
       (processInstruction interp s i).state.transaction_index =
         s.transaction_index ∧
       (processInstruction interp s i).state.cumulative_gas_per_block =
         s.cumulative_gas_per_block)) := by
  cases i with
  | AddAccount a =>
    right
    cases hl : mapLookup s.db a <;> simp [processInstruction, replyStep, hl]
  | BlockUpdate n t => exact absurd rfl (hbu n t)
  | Cheatcode c =>
    right
    cases c with
    | Load a k =>
      cases hl : mapLookup s.db a <;> simp [processInstruction, replyStep, hl]
    | Store a k v =>
      cases hl : mapLookup s.db a <;> simp [processInstruction, replyStep, hl]
    | Deal a amt =>
      cases hl : mapLookup s.db a <;> simp [processInstruction, replyStep, hl]
    | Access a =>
      cases hl : mapLookup s.db a <;> simp [processInstruction, replyStep, hl]
  | Call tx =>
    right
    cases hi : interp tx s.blockNumber s.blockTimestamp s.db with
    | ok p => simp [processInstruction, replyStep, hi]
    | error e => simp [processInstruction, replyStep, hi]
  | SetGasPrice p =>
    right
    simp [processInstruction, replyStep]
  | Transaction tx =>
    cases hi : interp tx s.blockNumber s.blockTimestamp s.db with
    | error e =>
      right
      simp [processInstruction, replyStep, hi]
    | ok p =>
      obtain ⟨res, db'⟩ := p
      cases hc : convert_uint_to_u64 s.blockNumber with
      | none =>
        right
        simp [processInstruction, replyStep, hi, hc]
      | some bn =>
        left
        refine ⟨res,
          { block_number := bn,
            transaction_index := s.transaction_index,
            cumulative_gas_per_block :=
              (s.cumulative_gas_per_block + res.gasUsed) % 2 ^ 256 },
          ?_, ?_, rfl, rfl, ?_, ?_⟩ <;>
        simp [processInstruction, replyStep, hi, hc]
  | Query q =>
    right
    cases q with
    | BlockNumber => simp [processInstruction, replyStep]
    | BlockTimestamp => simp [processInstruction, replyStep]
    | GasPrice => simp [processInstruction, replyStep]
    | Balance a =>
      cases hl : mapLookup s.db a <;> simp [processInstruction, replyStep, hl]
    | TransactionCount a =>
      cases hl : mapLookup s.db a <;> simp [processInstruction, replyStep, hl]
  | Stop =>
    right
    simp [processInstruction, replyStep]

/-- Receipt-counter invariant, generalized over the starting counters: along
any run without `BlockUpdate`, the `j`-th committed-transaction receipt
carries `transaction_index = start + j` and cumulative gas equal to the
starting cumulative gas plus the gas of the first `j + 1` committed
transactions — provided the counters stay below their word sizes. -/
theorem receipts_counter_invariant (interp : Interp) :
    ∀ (instrs : List Instruction) (s : WorkerState),
      (∀ n t, Instruction.BlockUpdate n t ∉ instrs) →
      s.transaction_index +
          (txReceipts (runWorker interp s instrs).1).length ≤ 2 ^ 64 →
      s.cumulative_gas_per_block +
          ((txReceipts (runWorker interp s instrs).1).map Prod.fst).sum < 2 ^ 256 →
      ∀ j pr, (txReceipts (runWorker interp s instrs).1).get? j = some pr →
        pr.2.transaction_index = s.transaction_index + j ∧
        pr.2.cumulative_gas_per_block =
          s.cumulative_gas_per_block +
            (((txReceipts (runWorker interp s instrs).1).map
                Prod.fst).take (j + 1)).sum := by
  intro instrs
  induction instrs with
  | nil =>
    intro s _ _ _ j pr hpr
    simp [runWorker, txReceipts] at hpr
  | cons i rest ih =>
    intro s hbu hlen hgas j pr hpr
    have hbui : ∀ n t, i ≠ Instruction.BlockUpdate n t := fun n t hni =>
      hbu n t (hni ▸ List.mem_cons_self i rest)
    have hbur : ∀ n t, Instruction.BlockUpdate n t ∉ rest := fun n t hmem =>
      hbu n t (List.mem_cons_of_mem i hmem)
    rcases step_shape interp s i hbui with
      ⟨res, rd, hrep, hctl, hti, hcg, hsti, hscg⟩ | ⟨hnorep, hpres⟩
    · -- the head instruction is a committed transaction
      have hrw := runWorker_cons_next interp s i rest hctl
      have hrs : txReceipts (runWorker interp s (i :: rest)).1 =
          (res.gasUsed, rd) ::
            txReceipts
              (runWorker interp (processInstruction interp s i).state rest).1 := by
        rw [hrw]
        exact txReceipts_cons_commit _ _ _ _ hrep
      rw [hrs] at hlen hgas hpr ⊢
      simp only [List.map_cons, List.sum_cons, List.length_cons] at hlen hgas
      have hglt : s.cumulative_gas_per_block + res.gasUsed < 2 ^ 256 :=
        Nat.lt_of_le_of_lt
          (Nat.add_le_add_left (Nat.le_add_right _ _) _) hgas
      cases j with
      | zero =>
        simp only [List.get?_cons_zero, Option.some.injEq] at hpr
        subst hpr
        refine ⟨by simpa using hti, ?_⟩
        rw [hcg, Nat.mod_eq_of_lt hglt]
        simp
      | succ j' =>
        rw [List.get?_cons_succ] at hpr
        have hj' : j' <
            (txReceipts
              (runWorker interp (processInstruction interp s i).state rest).1).length :=
          List.get?_eq_some.mp hpr |>.1
        have hstilt : s.transaction_index + 1 < 2 ^ 64 := by omega
        have hs'ti : (processInstruction interp s i).state.transaction_index =
            s.transaction_index + 1 := by
          rw [hsti, Nat.mod_eq_of_lt hstilt]
        have hs'cg : (processInstruction interp s i).state.cumulative_gas_per_block =
            s.cumulative_gas_per_block + res.gasUsed := by
          rw [hscg, Nat.mod_eq_of_lt hglt]
        have hlen' : (processInstruction interp s i).state.transaction_index +
            (txReceipts
              (runWorker interp (processInstruction interp s i).state rest).1).length ≤
            2 ^ 64 := by
          rw [hs'ti]; omega
        have hgas' : (processInstruction interp s i).state.cumulative_gas_per_block +
            ((txReceipts
              (runWorker interp (processInstruction interp s i).state rest).1).map
                Prod.fst).sum < 2 ^ 256 := by
          rw [hs'cg, Nat.add_assoc]; exact hgas
        obtain ⟨ih1, ih2⟩ :=
          ih (processInstruction interp s i).state hbur hlen' hgas' j' pr hpr
        constructor
        · rw [ih1, hs'ti]; omega
        · rw [ih2, hs'cg]
          simp only [List.map_cons, List.take_succ_cons, List.sum_cons]
          omega
    · -- the head instruction produced no transaction receipt
      by_cases hctl : (processInstruction interp s i).control = Control.next
      · have hrw := runWorker_cons_next interp s i rest hctl
        have hrs : txReceipts (runWorker interp s (i :: rest)).1 =
            txReceipts
              (runWorker interp (processInstruction interp s i).state rest).1 := by
          rw [hrw]
          exact txReceipts_cons_skip _ _ hnorep
        rw [hrs] at hlen hgas hpr ⊢
        obtain ⟨hti', hcg'⟩ := hpres hctl
        have hres := ih (processInstruction interp s i).state hbur
          (by rw [hti']; exact hlen) (by rw [hcg']; exact hgas) j pr hpr
        rw [hti', hcg'] at hres
        exact hres
      · have hrw := runWorker_cons_halt interp s i rest hctl
        have hrs : txReceipts (runWorker interp s (i :: rest)).1 = [] := by
          rw [hrw]
          rw [txReceipts_cons_skip _ _ hnorep]
          rfl
        rw [hrs] at hpr
        simp at hpr

/-- **C1**: along any worker run with no intervening `BlockUpdate`, started
at fresh block counters, the `j`-th committed transaction's
`TransactionCompleted` receipt carries `transaction_index = j` (so the
indices read `0, 1, 2, …` in processing order) and
`cumulative_gas_per_block` equal to the sum of `gas_used` over the first
`j + 1` committed transactions — hence cumulative gas is monotonically
non-decreasing across the block's receipts.  The bounds keep the `U64`/`U256`
counters below their word sizes. -/
theorem transaction_receipts_counters (interp : Interp)
    (instrs : List Instruction) (s : WorkerState)
    (hbu : ∀ n t, Instruction.BlockUpdate n t ∉ instrs)
    (hti0 : s.transaction_index = 0) (hcg0 : s.cumulative_gas_per_block = 0)
    (hlen : (txReceipts (runWorker interp s instrs).1).length ≤ 2 ^ 64)
    (hgas : ((txReceipts (runWorker interp s instrs).1).map Prod.fst).sum <
      2 ^ 256) :
    (∀ j pr, (txReceipts (runWorker interp s instrs).1).get? j = some pr →
      pr.2.transaction_index = j ∧
      pr.2.cumulative_gas_per_block =
        (((txReceipts (runWorker interp s instrs).1).map
            Prod.fst).take (j + 1)).sum) ∧
    (∀ j j' pr pr', j ≤ j' →
      (txReceipts (runWorker interp s instrs).1).get? j = some pr →
      (txReceipts (runWorker interp s instrs).1).get? j' = some pr' →
      pr.2.cumulative_gas_per_block ≤ pr'.2.cumulative_gas_per_block) := by
  have base := receipts_counter_invariant interp instrs s hbu
    (by rw [hti0]; simpa using hlen) (by rw [hcg0]; simpa using hgas)
  refine ⟨fun j pr hpr => ?_, fun j j' pr pr' hjj hpr hpr' => ?_⟩
  · obtain ⟨h1, h2⟩ := base j pr hpr
    rw [hti0] at h1
    rw [hcg0] at h2
    exact ⟨by simpa using h1, by simpa using h2⟩
  · obtain ⟨_, h2⟩ := base j pr hpr
    obtain ⟨_, h2'⟩ := base j' pr' hpr'
    rw [h2, h2']
    have hmono := sum_take_le_sum_take
      ((txReceipts (runWorker interp s instrs).1).map Prod.fst)
      (j + 1) (j' + 1) (by omega)
    omega

/-- Two committing transactions in one block, for the C1 witness. -/
def c1Instrs : List Instruction :=
  [Instruction.Transaction emptyTxEnv, Instruction.Transaction emptyTxEnv]

/-- The second receipt of the C1 witness run: index `1`, cumulative gas
`20 = 10 + 10`. -/
def c1SecondReceipt : ReceiptData :=
  { block_number := 0, transaction_index := 1, cumulative_gas_per_block := 20 }

/-- Witness for C1: two committed transactions of `10` gas each; the second
receipt shows index `1` and cumulative gas `10 + 10`. -/
theorem transaction_receipts_counters_witness :
    c1SecondReceipt.transaction_index = 1 ∧
    c1SecondReceipt.cumulative_gas_per_block =
      (((txReceipts (runWorker (constInterp 10) initState c1Instrs).1).map
          Prod.fst).take 2).sum :=
  (transaction_receipts_counters (constInterp 10) c1Instrs initState
      (by intro n t h; simp [c1Instrs] at h)
      rfl rfl (by decide) (by decide)).1
    1 (10, c1SecondReceipt) (by decide)

end ArbiterCore
